import Mathlib

/-!
Verification development for the ims-viewer extension.

The development shallowly embeds the request/response plumbing of the
extension: the JSON envelopes delivered by `runDataAnalysisScript`
(src/extension.ts), the message handlers of the webview providers, the
tree-data provider's connection check, the process-launching call sites,
and the parameter validation layer of the data-analysis service (whose
Python source is absent from the repository; it is modelled from the
spec's description).  Machine-checked theorems settle the frozen claims
about these components.
-/

set_option maxHeartbeats 1000000

/-- JSON values, as produced by JavaScript's `JSON.parse`. -/
inductive JVal where
  | jnull : JVal
  | jbool : Bool → JVal
  | jnum : Int → JVal
  | jstr : String → JVal
  | jarr : List JVal → JVal
  | jobj : List (String × JVal) → JVal

/-- Whitespace accepted between JSON tokens (also what `String.prototype.trim` strips). -/
def wsp (c : Char) : Bool :=
  c = ' ' || c = '\n' || c = '\t' || c = '\r'

/-- Drop leading JSON whitespace. -/
def skipWs (cs : List Char) : List Char :=
  cs.dropWhile wsp

/-- Strip whitespace from both ends of a character list
(model of JavaScript's `String.prototype.trim`). -/
def trimChars (cs : List Char) : List Char :=
  ((cs.reverse.dropWhile wsp).reverse).dropWhile wsp

/-- Model of JavaScript's `stringValue.trim()`. -/
def jsTrim (s : String) : String :=
  ⟨trimChars s.data⟩

/-- Model of JavaScript's `a || b` for strings: `b` when `a` is empty. -/
def strOrElse (a b : String) : String :=
  if a = "" then b else a

/-- Body of a JSON string literal: characters up to the closing quote,
with the basic escapes. Returns the decoded string and the rest of the input. -/
def strBody : List Char → Option (String × List Char)
  | [] => none
  | c :: cs =>
    if c = Char.ofNat 34 then some ("", cs)
    else if c = '\\' then
      match cs with
      | [] => none
      | e :: cs2 =>
        let dec : Option Char :=
          if e = Char.ofNat 34 then some (Char.ofNat 34)
          else if e = '\\' then some '\\'
          else if e = '/' then some '/'
          else if e = 'n' then some '\n'
          else if e = 't' then some '\t'
          else if e = 'r' then some '\r'
          else none
        match dec with
        | none => none
        | some d =>
          match strBody cs2 with
          | some (s, rest) => some (⟨d :: s.data⟩, rest)
          | none => none
    else
      match strBody cs with
      | some (s, rest) => some (⟨c :: s.data⟩, rest)
      | none => none

/-- Take a maximal run of decimal digits. -/
def takeDigits : List Char → (List Char × List Char)
  | [] => ([], [])
  | c :: cs =>
    if c.isDigit then
      let p := takeDigits cs
      (c :: p.1, p.2)
    else ([], c :: cs)

/-- Numeric value of a digit run. -/
def digitsToNat (ds : List Char) : Nat :=
  ds.foldl (fun a c => a * 10 + (c.toNat - 48)) 0

mutual

/-- Recursive-descent JSON value reader (fuel-indexed). -/
def readVal : Nat → List Char → Option (JVal × List Char)
  | 0, _ => none
  | Nat.succ fuel, input =>
    match skipWs input with
    | [] => none
    | c :: cs =>
      if c = Char.ofNat 34 then
        match strBody cs with
        | some (s, r) => some (JVal.jstr s, r)
        | none => none
      else if c = Char.ofNat 123 then
        match skipWs cs with
        | d :: r =>
          if d = Char.ofNat 125 then some (JVal.jobj [], r)
          else
            match readMembers fuel (d :: r) with
            | some (ms, r2) => some (JVal.jobj ms, r2)
            | none => none
        | [] => none
      else if c = '[' then
        match skipWs cs with
        | ']' :: r => some (JVal.jarr [], r)
        | cs2 =>
          match readItems fuel cs2 with
          | some (vs, r2) => some (JVal.jarr vs, r2)
          | none => none
      else if c = 't' then
        match cs with
        | 'r' :: 'u' :: 'e' :: r => some (JVal.jbool true, r)
        | _ => none
      else if c = 'f' then
        match cs with
        | 'a' :: 'l' :: 's' :: 'e' :: r => some (JVal.jbool false, r)
        | _ => none
      else if c = 'n' then
        match cs with
        | 'u' :: 'l' :: 'l' :: r => some (JVal.jnull, r)
        | _ => none
      else if c = '-' then
        match takeDigits cs with
        | ([], _) => none
        | (ds, r) => some (JVal.jnum (-(digitsToNat ds : Int)), r)
      else if c.isDigit then
        let p := takeDigits (c :: cs)
        some (JVal.jnum (digitsToNat p.1), p.2)
      else none

/-- Members of a JSON object after the opening brace (fuel-indexed). -/
def readMembers : Nat → List Char → Option (List (String × JVal) × List Char)
  | 0, _ => none
  | Nat.succ fuel, input =>
    match skipWs input with
    | q :: cs =>
      if q = Char.ofNat 34 then
        match strBody cs with
        | none => none
        | some (k, r1) =>
          match skipWs r1 with
          | ':' :: r2 =>
            match readVal fuel r2 with
            | none => none
            | some (v, r3) =>
              match skipWs r3 with
              | ',' :: r4 =>
                match readMembers fuel r4 with
                | some (ms, r5) => some ((k, v) :: ms, r5)
                | none => none
              | d :: r4 =>
                if d = Char.ofNat 125 then some ([(k, v)], r4) else none
              | [] => none
          | _ => none
      else none
    | [] => none

/-- Items of a JSON array after the opening bracket (fuel-indexed). -/
def readItems : Nat → List Char → Option (List JVal × List Char)
  | 0, _ => none
  | Nat.succ fuel, input =>
    match readVal fuel input with
    | none => none
    | some (v, r1) =>
      match skipWs r1 with
      | ',' :: r2 =>
        match readItems fuel r2 with
        | some (vs, r3) => some (v :: vs, r3)
        | none => none
      | ']' :: r2 => some ([v], r2)
      | _ => none

end

/-- Model of JavaScript's `JSON.parse`: `none` models a thrown `SyntaxError`. -/
def jsonParse (s : String) : Option JVal :=
  match readVal (s.data.length + 1) s.data with
  | some (v, rest) => if skipWs rest = [] then some v else none
  | none => none

/-- First field with the given key in a JSON object literal. -/
def lookupField : List (String × JVal) → String → Option JVal
  | [], _ => none
  | (k2, v) :: rest, k => if k2 = k then some v else lookupField rest k

/-- Model of JavaScript property access `v.k` on a parsed JSON value:
`none` models `undefined`. -/
def lookupJ (v : JVal) (k : String) : Option JVal :=
  match v with
  | JVal.jobj fs => lookupField fs k
  | _ => none

/-- JavaScript truthiness of a parsed JSON value. -/
def jsTruthy : JVal → Bool
  | JVal.jnull => false
  | JVal.jbool b => b
  | JVal.jnum n => !(n = 0)
  | JVal.jstr s => !(s = "")
  | JVal.jarr _ => true
  | JVal.jobj _ => true

/-! ## `runDataAnalysisScript` (src/extension.ts, lines 2147-2210) -/

/-- How a spawned child process ends, as observed by the Node event handlers:
either the `error` event fired (the process failed to start), or the `close`
event fired with an exit code and the accumulated stdout/stderr. -/
inductive ProcEnd where
  | startError (msg : String)
  | closed (code : Int) (stdoutData : String) (errorOutput : String)

/-- How the promise returned by `runDataAnalysisScript` settles. -/
inductive Settled where
  | rejected (msg : String)
  | resolved (v : JVal)

/-- The string `JSON.parse` receives when stdout is empty:
`'\x7b"success": false, "error": "无数据返回"\x7d'`. -/
def emptyStdoutFallback : String :=
  "\x7b\"success\": false, \"error\": \"无数据返回\"\x7d"

/-- The `close`-event handler of `runDataAnalysisScript`
(src/extension.ts, lines 2189-2208). -/
def runDataAnalysisOnClose (code : Int) (stdoutData errorOutput : String) : Settled :=
  if code = 0 then
    match jsonParse (strOrElse (jsTrim stdoutData) emptyStdoutFallback) with
    | some v => Settled.resolved v
    | none =>
      Settled.resolved (JVal.jobj
        [("success", JVal.jbool false),
         ("error", JVal.jstr "解析结果失败"),
         ("rawOutput", JVal.jstr stdoutData)])
  else
    Settled.resolved (JVal.jobj
      [("success", JVal.jbool false),
       ("error", JVal.jstr
         (strOrElse errorOutput ("脚本执行失败，退出码: " ++ toString code))),
       ("rawOutput", JVal.jstr stdoutData)])

/-- `runDataAnalysisScript` as a function of the process outcome
(src/extension.ts, lines 2147-2210): the `error` event rejects, the
`close` event resolves via `runDataAnalysisOnClose`. -/
def runDataAnalysisScript : ProcEnd → Settled
  | ProcEnd.startError msg => Settled.rejected ("无法启动数据分析脚本: " ++ msg)
  | ProcEnd.closed code out err => runDataAnalysisOnClose code out err

/-- A success envelope in the sense of the spec: `success = true`
together with a `data` payload. -/
def isSuccessDataEnvelope : JVal → Bool
  | JVal.jobj fs =>
    (match lookupField fs "success" with
     | some (JVal.jbool true) => true
     | _ => false)
    && (lookupField fs "data").isSome
  | _ => false

/-- An error object carrying a code/message/details triple. -/
def isTripleErrorObj : Option JVal → Bool
  | some (JVal.jobj efs) =>
    (lookupField efs "code").isSome && (lookupField efs "message").isSome
      && (lookupField efs "details").isSome
  | _ => false

/-- A failure envelope in the sense of the spec: `success = false` with an
error object carrying a code/message/details triple. -/
def isFailureTripleEnvelope : JVal → Bool
  | JVal.jobj fs =>
    (match lookupField fs "success" with
     | some (JVal.jbool false) => true
     | _ => false)
    && isTripleErrorObj (lookupField fs "error")
  | _ => false

/-- A failure envelope as the extension layer actually fabricates it:
`success = false` with a plain string in the `error` field. -/
def isStringErrorEnvelope : JVal → Bool
  | JVal.jobj fs =>
    (match lookupField fs "success" with
     | some (JVal.jbool false) => true
     | _ => false)
    && (match lookupField fs "error" with
        | some (JVal.jstr _) => true
        | _ => false)
  | _ => false

/-! ## `ImsTreeDataProvider` (imsTreeDataProvider source file) -/

/-- The default table mapping of `ImsTreeDataProvider.loadTableMapping`. -/
def defaultTableMapping : List (String × String) :=
  [("materials", "物料信息表"),
   ("suppliers", "供应商信息表"),
   ("customers", "客户信息表"),
   ("purchase_params", "进货参数表"),
   ("purchase_inbound", "进货入库明细表"),
   ("sales_outbound", "销售出库明细表"),
   ("payment_details", "付款明细表"),
   ("receipt_details", "收款明细表"),
   ("inventory_stats", "库存统计表")]

/-- The mutable fields of `ImsTreeDataProvider` the connection check touches. -/
structure TreeState where
  isConnected : Bool
  collections : List String
  tableMapping : List (String × String)

/-- `ImsTreeDataProvider` right after construction:
`isConnected = false`, no collections. -/
def initialTreeState : TreeState :=
  { isConnected := false, collections := [], tableMapping := defaultTableMapping }

/-- `loadDefaultCollections`: `collections = Object.keys(tableMapping)`. -/
def loadDefaultCollections (s : TreeState) : TreeState :=
  { s with collections := s.tableMapping.map Prod.fst }

/-- Strings held in a parsed JSON array (the `collections` field the
backend script reports). -/
def stringsOf : JVal → List String
  | JVal.jarr vs =>
    vs.filterMap (fun v => match v with | JVal.jstr s => some s | _ => none)
  | _ => []

/-- The `exec` callback of `ImsTreeDataProvider.checkConnection`:
`hasError` is whether the `error` argument was non-null.  Every branch sets
`isConnected := true`; the exec-failure, backend-error and parse-failure
branches load the default collections; the success branch takes
`result.collections || []`. -/
def checkConnectionCb (s : TreeState) (hasError : Bool) (stdout stderr : String) :
    TreeState :=
  if hasError || !(stderr = "") then
    loadDefaultCollections { s with isConnected := true }
  else
    match jsonParse stdout with
    | some result =>
      if (lookupJ result "error").elim false jsTruthy then
        loadDefaultCollections { s with isConnected := true }
      else
        { s with
          isConnected := true,
          collections :=
            match lookupJ result "collections" with
            | some v => if jsTruthy v then stringsOf v else []
            | none => [] }
    | none => loadDefaultCollections { s with isConnected := true }

/-- Labels of the root items `getChildren` produces for the given state. -/
def getChildrenRoot (s : TreeState) : List String :=
  if !s.isConnected then
    ["数据库未连接 - 点击重新连接", "测试数据库连接"]
  else
    ["数据库表", "业务视图", "管理视图"]

/-! ## Webview provider `show()` / dispose lifecycle -/

/-- The observable provider state the `show()` pattern manipulates: whether a
panel exists, and how many panels were created, HTML documents assigned and
handlers registered so far. -/
structure WebviewState where
  panel : Option Nat
  panelsCreated : Nat
  htmlSets : Nat
  msgHandlers : Nat
  disposeHandlers : Nat
deriving DecidableEq

/-- The `show()` method shared by the webview providers: when `_panel` is
defined it only reveals the panel and returns; otherwise it creates a panel,
assigns its HTML and registers one message handler and one dispose handler. -/
def showPanel (s : WebviewState) : WebviewState :=
  match s.panel with
  | some _ => s
  | none =>
    { panel := some s.panelsCreated,
      panelsCreated := s.panelsCreated + 1,
      htmlSets := s.htmlSets + 1,
      msgHandlers := s.msgHandlers + 1,
      disposeHandlers := s.disposeHandlers + 1 }

/-- The `onDidDispose` callback: `_panel` is reset to `undefined`. -/
def disposePanel (s : WebviewState) : WebviewState :=
  { s with panel := none }

/-! ## `SupplierManagementWebviewProvider._handleMessage` and
`CustomerManagementWebviewProvider._addCustomer` -/

/-- The mutating webview commands of the supplier provider. -/
def supplierMutations : List String := ["add", "update", "delete", "batch_delete"]

/-- Scripts invocations (by operation name) that one webview message to
`SupplierManagementWebviewProvider._handleMessage` performs: `list` runs the
script once; every mutation runs the script for the operation and then again
for the list refresh; unknown commands run nothing. -/
def supplierHandleMessage (command : String) : List String :=
  if command = "list" then ["list"]
  else if command ∈ supplierMutations then [command, "list"]
  else []

/-- Script invocations of `CustomerManagementWebviewProvider._addCustomer`:
the `add` operation, then a list reload when the add succeeded. -/
def customerAddSpawns (addSucceeded : Bool) : List String :=
  if addSucceeded then ["add", "list"] else ["add"]

/-! ## Process-launching call sites and their options -/

/-- A `spawn`/`exec` call site: the enclosing function, the `timeout` option
passed (in milliseconds, `none` when absent) and how many times the site
re-invokes a failed process. -/
structure SpawnSite where
  fn : String
  timeoutMs : Option Nat
  retries : Nat
deriving DecidableEq

/-- Every process-launching call site of the extension, with the `timeout`
option each passes: the fourteen `spawn` sites of src/extension.ts pass only
`env` options; of the webview providers only the material-management and
dashboard providers pass `timeout: 30000` to `exec`; no site retries. -/
def spawnSites : List SpawnSite :=
  [⟨"runScript", none, 0⟩,
   ⟨"runDatabaseTest", none, 0⟩,
   ⟨"handleCrudOperation", none, 0⟩,
   ⟨"loadTableData", none, 0⟩,
   ⟨"loadBusinessViewData", none, 0⟩,
   ⟨"runAddMaterialScript", none, 0⟩,
   ⟨"showInventoryManagementPanel.runPython", none, 0⟩,
   ⟨"runDataAnalysisScript", none, 0⟩,
   ⟨"handleInventoryDataLoad", none, 0⟩,
   ⟨"handlePurchaseDataLoad", none, 0⟩,
   ⟨"handleSalesDataLoad", none, 0⟩,
   ⟨"handleSuppliersLoad", none, 0⟩,
   ⟨"handleCustomersLoad", none, 0⟩,
   ⟨"handleMaterialsLoad", none, 0⟩,
   ⟨"MaterialWebviewProvider._executePythonScript", some 30000, 0⟩,
   ⟨"SupplierManagementWebviewProvider._executePythonScript", none, 0⟩,
   ⟨"DataAnalysisDashboardWebviewProvider._executePythonScript", some 30000, 0⟩,
   ⟨"CustomerManagementWebviewProvider._executePythonScript", none, 0⟩,
   ⟨"DataEntryWebviewProvider.runPythonScript", none, 0⟩,
   ⟨"ImsTreeDataProvider.checkConnection", none, 0⟩,
   ⟨"ImsTreeDataProvider.getMaterialsAsTreeItems", none, 0⟩]

/-- The two call sites that pass an explicit timeout. -/
def timedSites : List String :=
  ["MaterialWebviewProvider._executePythonScript",
   "DataAnalysisDashboardWebviewProvider._executePythonScript"]

/-! ## Failure handling of the report handlers -/

/-- A message posted to a webview panel. -/
inductive PostedMsg where
  | loading (b : Bool)
  | dataMsg (v : JVal)
  | errorMsg (text : String)

/-- Whether a posted message is an error display. -/
def isErrorMsg : PostedMsg → Bool
  | PostedMsg.errorMsg _ => true
  | _ => false

/-- Whether a posted message carries result data. -/
def isDataMsg : PostedMsg → Bool
  | PostedMsg.dataMsg _ => true
  | _ => false

/-- The `close`-event handler of `loadBusinessViewData`
(src/extension.ts, lines 1399-1421): clear the loading flag, then either
post the parsed data or post a single error message. -/
def loadBusinessViewOnClose (code : Int) (dataOutput errorOutput : String) :
    List PostedMsg :=
  PostedMsg.loading false ::
    (if code = 0 then
      match jsonParse (jsTrim dataOutput) with
      | some v => [PostedMsg.dataMsg v]
      | none => [PostedMsg.errorMsg ("数据解析失败" ++ "\n原始输出: " ++ dataOutput)]
    else
      [PostedMsg.errorMsg ("业务视图生成失败: " ++ strOrElse errorOutput "未知错误")])

/-- Result of `DataAnalysisDashboardWebviewProvider._executePythonScript`
as a function of the `exec` callback arguments: an exec error rejects, an
unparsable stdout rejects, otherwise the parsed JSON is returned. -/
def dashboardScriptResult (execErr : Option String) (stdout : String) :
    Except String JVal :=
  match execErr with
  | some m => Except.error ("脚本执行失败: " ++ m)
  | none =>
    match jsonParse stdout with
    | some v => Except.ok v
    | none => Except.error "解析脚本输出失败"

/-- `DataAnalysisDashboardWebviewProvider._getDashboardData`: a resolved
script result is forwarded as dashboard data, a rejected one becomes a single
error message. -/
def getDashboardDataMsgs (r : Except String JVal) : List PostedMsg :=
  match r with
  | Except.ok v => [PostedMsg.dataMsg v]
  | Except.error m => [PostedMsg.errorMsg ("获取仪表板数据失败: " ++ m)]

/-! ## Parameter validation layer of the data-analysis service

The Python file `scripts/data_analysis_service.py` is not part of the
repository sources; only its design summary and its callers are.  The
validators below are therefore modelled from the spec. -/

/-- A raw parameter value handed to the numeric validator: an integer, a
string, or something of another type. -/
inductive RawValue where
  | vint (n : Int)
  | vstr (s : String)
  | vother

/-- Modelled from the spec: the integer coercion used by
`_validate_numeric_params` of scripts/data_analysis_service.py (file missing
from the sources) — a decimal string, optionally signed and surrounded by
whitespace, is converted to an integer; anything else fails. -/
def parseIntChars : List Char → Option Int
  | [] => none
  | c :: rest =>
    if c = '-' then
      if !(rest = []) && rest.all Char.isDigit then
        some (-(digitsToNat rest : Int))
      else none
    else if (c :: rest).all Char.isDigit then
      some ((digitsToNat (c :: rest) : Int))
    else none

/-- Modelled from the spec: the string half of the integer coercion —
strip surrounding whitespace, then read an optionally signed decimal
numeral. -/
def parseIntStr (s : String) : Option Int :=
  parseIntChars (jsTrim s).data

/-- Modelled from the spec: type coercion of `_validate_numeric_params` —
integers pass through, numeric strings are converted, other values cannot be
coerced. -/
def coerceInt : RawValue → Option Int
  | RawValue.vint n => some n
  | RawValue.vstr s => parseIntStr s
  | RawValue.vother => none

/-- Clamp an integer into `[lo, hi]`. -/
def clampInt (lo hi x : Int) : Int :=
  max lo (min hi x)

/-- Modelled from the spec: validation of the `page` parameter — coerce,
clamp into `[1, 10000]`, and fall back to the default `1` when the value
cannot be coerced. -/
def validatePage (v : RawValue) : Int :=
  match coerceInt v with
  | some n => clampInt 1 10000 n
  | none => 1

/-- Modelled from the spec: validation of the `page_size` parameter — coerce,
clamp into `[1, 1000]`, and fall back to the default `50` when the value
cannot be coerced. -/
def validatePageSize (v : RawValue) : Int :=
  match coerceInt v with
  | some n => clampInt 1 1000 n
  | none => 50

/-- Modelled from the spec: validation of the `limit` parameter — coerce and
clamp into `[1, 10000]`; an uncoercible value is dropped (the summary names
no general default for `limit`). -/
def validateLimit (v : RawValue) : Option Int :=
  match coerceInt v with
  | some n => some (clampInt 1 10000 n)
  | none => none

/-- The characters `_clean_string_input` removes. -/
def dangerousChars : List Char :=
  ['<', '>', Char.ofNat 34, Char.ofNat 39, '&', ';', '|', Char.ofNat 96, '$']

/-- Modelled from the spec: `_clean_string_input` of
scripts/data_analysis_service.py (file missing from the sources) — remove the
dangerous characters, cap the length at 100 characters, and strip surrounding
whitespace (quotes are removed with the dangerous characters). -/
def cleanStringInput (s : String) : String :=
  ⟨trimChars ((s.data.filter (fun c => !(decide (c ∈ dangerousChars)))).take 100)⟩

/-- Allowed values of the `dimension` parameter. -/
def allowedDimensions : List String :=
  ["month", "quarter", "product", "customer", "supplier"]

/-- Allowed values of the `analysis_type` parameter. -/
def allowedAnalysisTypes : List String :=
  ["rfm", "ranking", "segmentation", "overview"]

/-- Allowed values of the `format` parameter. -/
def allowedFormats : List String := ["json", "csv", "excel"]

/-- Allowed values of the `metrics` array parameter. -/
def allowedMetrics : List String :=
  ["total_sales", "total_purchases", "order_count"]

/-- Modelled from the spec: validation of an enumerated string parameter —
clean the string and substitute the field's default when the cleaned value is
not in the allowed list (the validator clamps or defaults, it does not
reject). -/
def validateEnumField (allowed : List String) (dflt : String) :
    Option String → Option String
  | none => none
  | some s =>
    let c := cleanStringInput s
    if c ∈ allowed then some c else some dflt

/-- Modelled from the spec: validation of an array parameter — clean each
element, keep the allowed ones, deduplicate, and substitute the default list
when nothing remains. -/
def validateArrayField (allowed : List String) (dflt : List String) :
    Option (List String) → Option (List String)
  | none => none
  | some xs =>
    let ys := ((xs.map cleanStringInput).filter (· ∈ allowed)).dedup
    if ys = [] then some dflt else some ys

/-- Modelled from the spec: the `YYYY-MM-DD` date-format check of
`_validate_and_format_date_range` — four digits, dash, a month `01`-`12`,
dash, a day `01`-`31`. -/
def parseDateYMD (s : String) : Option (Nat × Nat × Nat) :=
  match s.data with
  | [y1, y2, y3, y4, h1, m1, m2, h2, d1, d2] =>
    if h1 = '-' && h2 = '-'
        && [y1, y2, y3, y4, m1, m2, d1, d2].all Char.isDigit then
      let y := digitsToNat [y1, y2, y3, y4]
      let m := digitsToNat [m1, m2]
      let d := digitsToNat [d1, d2]
      if 1 ≤ m && m ≤ 12 && 1 ≤ d && d ≤ 31 then some (y, m, d) else none
    else none
  | _ => none

/-- The structured error object of the validation layer. -/
structure VError where
  code : String
  message : String
  details : String

/-- The raw parameter object handed to `validate_and_clean_params`. -/
structure RawParams where
  start_date : Option String
  end_date : Option String
  page : Option RawValue
  page_size : Option RawValue
  limit : Option RawValue
  dimension : Option String
  analysis_type : Option String
  fmt : Option String
  metrics : Option (List String)
  dims : Option (List String)

/-- The cleaned parameter object `validate_and_clean_params` produces. -/
structure CleanParams where
  start_date : Option String
  end_date : Option String
  page : Int
  page_size : Int
  limit : Option Int
  dimension : Option String
  analysis_type : Option String
  fmt : Option String
  metrics : Option (List String)
  dims : Option (List String)

/-- Modelled from the spec: `_apply_default_values` of
scripts/data_analysis_service.py (file missing from the sources) — the
general defaults `page = 1` and `page_size = 50` fill missing numeric
parameters, and the per-method defaults fill `dimension = month` for
`analyze_sales_trend`, `analysis_type = rfm` for `analyze_customer_value`,
and the metric/dimension lists for `generate_comparison_analysis`. -/
def applyDefaultValues (method : String) (p : RawParams) : RawParams :=
  { p with
    page := some (p.page.getD (RawValue.vint 1)),
    page_size := some (p.page_size.getD (RawValue.vint 50)),
    dimension :=
      if method = "analyze_sales_trend" then some (p.dimension.getD "month")
      else p.dimension,
    analysis_type :=
      if method = "analyze_customer_value" then some (p.analysis_type.getD "rfm")
      else p.analysis_type,
    metrics :=
      if method = "generate_comparison_analysis" then
        some (p.metrics.getD ["total_sales", "total_purchases"])
      else p.metrics,
    dims :=
      if method = "generate_comparison_analysis" then
        some (p.dims.getD ["month", "product"])
      else p.dims }

/-- Modelled from the spec: validation of one optional date field — a missing
date is kept missing, a cleaned date in `YYYY-MM-DD` format passes, anything
else is rejected with a structured `INVALID_PARAMETERS` error. -/
def validateDateField (s : Option String) : Except VError (Option String) :=
  match s with
  | none => Except.ok none
  | some str =>
    if (parseDateYMD (jsTrim str)).isSome then Except.ok (some (jsTrim str))
    else
      Except.error
        ⟨"INVALID_PARAMETERS", "日期格式无效", "日期格式应为 YYYY-MM-DD"⟩

/-- Modelled from the spec: stages 2-5 of `validate_and_clean_params` —
validate the date range, the numeric parameters, the string parameters and
the array parameters against the fixed per-field table; only an uncoercible
date rejects, every other value is coerced, clamped or replaced by its
default. -/
def validateStages (p : RawParams) : Except VError CleanParams :=
  match validateDateField p.start_date with
  | Except.error e => Except.error e
  | Except.ok sd =>
    match validateDateField p.end_date with
    | Except.error e => Except.error e
    | Except.ok ed =>
      Except.ok
        { start_date := sd,
          end_date := ed,
          page := validatePage (p.page.getD (RawValue.vint 1)),
          page_size := validatePageSize (p.page_size.getD (RawValue.vint 50)),
          limit := p.limit.bind validateLimit,
          dimension := validateEnumField allowedDimensions "month" p.dimension,
          analysis_type :=
            validateEnumField allowedAnalysisTypes "rfm" p.analysis_type,
          fmt := validateEnumField allowedFormats "json" p.fmt,
          metrics :=
            validateArrayField allowedMetrics ["total_sales", "total_purchases"]
              p.metrics,
          dims :=
            validateArrayField allowedDimensions ["month", "product"] p.dims }

/-- Modelled from the spec: `validate_and_clean_params` of
scripts/data_analysis_service.py (file missing from the sources) — apply the
per-method and general defaults first, then run the validation stages on
the defaulted parameters. -/
def validateAndCleanParams (method : String) (p0 : RawParams) :
    Except VError CleanParams :=
  validateStages (applyDefaultValues method p0)

/-- Both dates of a parameter object are coercible: missing or well-formed. -/
def datesCoercible (p : RawParams) : Prop :=
  (∀ s, p.start_date = some s → (parseDateYMD (jsTrim s)).isSome = true) ∧
  (∀ s, p.end_date = some s → (parseDateYMD (jsTrim s)).isSome = true)

/-! ## Helper lemmas -/

lemma onClose_resolved (code : Int) (out err : String) :
    ∃ v, runDataAnalysisOnClose code out err = Settled.resolved v := by
  unfold runDataAnalysisOnClose
  by_cases h : code = 0
  · simp only [h, if_true]
    cases jsonParse (strOrElse (jsTrim out) emptyStdoutFallback) <;> simp
  · simp only [h, if_false]
    exact ⟨_, rfl⟩

lemma dropWhile_head_not (p : Char → Bool) :
    ∀ (l : List Char) (c : Char), (l.dropWhile p).head? = some c → p c = false := by
  intro l
  induction l with
  | nil => intro c h; simp at h
  | cons a as ih =>
    intro c h
    by_cases ha : p a
    · rw [List.dropWhile_cons, if_pos ha] at h
      exact ih c h
    · rw [List.dropWhile_cons, if_neg ha] at h
      simp only [List.head?_cons, Option.some.injEq] at h
      subst h
      exact Bool.eq_false_iff.mpr ha

lemma getLast?_dropWhile (p : Char → Bool) :
    ∀ (l : List Char), l.dropWhile p ≠ [] →
      (l.dropWhile p).getLast? = l.getLast? := by
  intro l
  induction l with
  | nil => intro h; simp at h
  | cons a as ih =>
    intro h
    by_cases ha : p a
    · rw [List.dropWhile_cons, if_pos ha] at h ⊢
      rw [ih h]
      cases as with
      | nil => simp [List.dropWhile] at h
      | cons b bs => rw [List.getLast?_cons_cons]
    · rw [List.dropWhile_cons, if_neg ha]

lemma dropWhile_subset (p : Char → Bool) :
    ∀ (l : List Char) (c : Char), c ∈ l.dropWhile p → c ∈ l := by
  intro l
  induction l with
  | nil => intro c h; simp [List.dropWhile] at h
  | cons a as ih =>
    intro c h
    by_cases ha : p a
    · rw [List.dropWhile_cons, if_pos ha] at h
      exact List.mem_cons_of_mem a (ih c h)
    · rw [List.dropWhile_cons, if_neg ha] at h
      exact h

lemma dropWhile_length_le (p : Char → Bool) :
    ∀ (l : List Char), (l.dropWhile p).length ≤ l.length := by
  intro l
  induction l with
  | nil => simp
  | cons a as ih =>
    by_cases ha : p a
    · rw [List.dropWhile_cons, if_pos ha]
      exact Nat.le_succ_of_le ih
    · rw [List.dropWhile_cons, if_neg ha]

lemma mem_trimChars (l : List Char) (c : Char) (h : c ∈ trimChars l) : c ∈ l := by
  unfold trimChars at h
  have h1 := dropWhile_subset wsp _ _ h
  rw [List.mem_reverse] at h1
  have h2 := dropWhile_subset wsp _ _ h1
  rwa [List.mem_reverse] at h2

lemma trimChars_length_le (l : List Char) : (trimChars l).length ≤ l.length := by
  unfold trimChars
  calc (((l.reverse.dropWhile wsp).reverse).dropWhile wsp).length
      ≤ ((l.reverse.dropWhile wsp).reverse).length := dropWhile_length_le wsp _
    _ = (l.reverse.dropWhile wsp).length := List.length_reverse _
    _ ≤ l.reverse.length := dropWhile_length_le wsp _
    _ = l.length := List.length_reverse _

lemma trimChars_head (l : List Char) (c : Char)
    (h : (trimChars l).head? = some c) : wsp c = false :=
  dropWhile_head_not wsp _ c h

lemma trimChars_getLast (l : List Char) (c : Char)
    (h : (trimChars l).getLast? = some c) : wsp c = false := by
  unfold trimChars at h
  have hne : ((l.reverse.dropWhile wsp).reverse).dropWhile wsp ≠ [] := by
    intro hnil
    rw [hnil] at h
    simp at h
  rw [getLast?_dropWhile wsp _ hne, List.getLast?_reverse] at h
  exact dropWhile_head_not wsp _ c h

lemma dropWhile_eq_self_of_no_sat (p : Char → Bool) (l : List Char)
    (h : ∀ c ∈ l, p c = false) : l.dropWhile p = l := by
  cases l with
  | nil => rfl
  | cons a as =>
    rw [List.dropWhile_cons, if_neg (by simp [h a (List.mem_cons_self a as)])]

lemma trimChars_eq_self (l : List Char) (h : ∀ c ∈ l, wsp c = false) :
    trimChars l = l := by
  unfold trimChars
  rw [dropWhile_eq_self_of_no_sat wsp l.reverse
        (fun c hc => h c (List.mem_reverse.mp hc)),
      List.reverse_reverse, dropWhile_eq_self_of_no_sat wsp l h]

lemma wsp_of_isDigit (c : Char) (h : c.isDigit = true) : wsp c = false := by
  by_contra hw
  rw [Bool.not_eq_false, wsp] at hw
  rcases Bool.or_eq_true_iff.mp hw with hw1 | hw4
  · rcases Bool.or_eq_true_iff.mp hw1 with hw2 | hw3
    · rcases Bool.or_eq_true_iff.mp hw2 with hs | hn
      · rw [decide_eq_true_iff] at hs; subst hs; simp [Char.isDigit] at h
      · rw [decide_eq_true_iff] at hn; subst hn; simp [Char.isDigit] at h
    · rw [decide_eq_true_iff] at hw3; subst hw3; simp [Char.isDigit] at h
  · rw [decide_eq_true_iff] at hw4; subst hw4; simp [Char.isDigit] at h

/-! ## Claim theorems -/

/-- C10: `runDataAnalysisScript` rejects its promise if and only if the
Python process fails to start; a non-zero exit code resolves with a
`success:false / error / rawOutput` object, unparsable stdout with exit code
0 resolves with a `success:false / error / rawOutput` object, and empty
stdout with exit code 0 resolves to the `无数据返回` failure object. -/
theorem c10_reject_iff_start_failure :
    (∀ o : ProcEnd,
      (∃ m, runDataAnalysisScript o = Settled.rejected m) ↔
        (∃ m, o = ProcEnd.startError m)) ∧
    (∀ (code : Int) (out err : String), ¬(code = 0) →
      runDataAnalysisScript (ProcEnd.closed code out err) =
        Settled.resolved (JVal.jobj
          [("success", JVal.jbool false),
           ("error", JVal.jstr
             (strOrElse err ("脚本执行失败，退出码: " ++ toString code))),
           ("rawOutput", JVal.jstr out)])) ∧
    (∀ (out err : String),
      jsonParse (strOrElse (jsTrim out) emptyStdoutFallback) = none →
      runDataAnalysisScript (ProcEnd.closed 0 out err) =
        Settled.resolved (JVal.jobj
          [("success", JVal.jbool false),
           ("error", JVal.jstr "解析结果失败"),
           ("rawOutput", JVal.jstr out)])) ∧
    (∀ err : String,
      runDataAnalysisScript (ProcEnd.closed 0 "" err) =
        Settled.resolved (JVal.jobj
          [("success", JVal.jbool false),
           ("error", JVal.jstr "无数据返回")])) := by
  refine ⟨?_, ?_, ?_, ?_⟩
  · intro o
    constructor
    · rintro ⟨m, hm⟩
      cases o with
      | startError m2 => exact ⟨m2, rfl⟩
      | closed code out err =>
        obtain ⟨v, hv⟩ := onClose_resolved code out err
        rw [show runDataAnalysisScript (ProcEnd.closed code out err) =
              runDataAnalysisOnClose code out err from rfl, hv] at hm
        exact absurd hm (by simp)
    · rintro ⟨m, rfl⟩
      exact ⟨_, rfl⟩
  · intro code out err hc
    show runDataAnalysisOnClose code out err = _
    unfold runDataAnalysisOnClose
    rw [if_neg hc]
  · intro out err hp
    show runDataAnalysisOnClose 0 out err = _
    unfold runDataAnalysisOnClose
    rw [if_pos rfl, hp]
  · intro err
    rfl

/-- C10 witness: concrete instances of the hypothesis-bearing conjuncts. -/
theorem c10_witness :
    runDataAnalysisScript (ProcEnd.closed 2 "x" "boom") =
      Settled.resolved (JVal.jobj
        [("success", JVal.jbool false),
         ("error", JVal.jstr "boom"),
         ("rawOutput", JVal.jstr "x")]) ∧
    runDataAnalysisScript (ProcEnd.closed 0 "not json" "") =
      Settled.resolved (JVal.jobj
        [("success", JVal.jbool false),
         ("error", JVal.jstr "解析结果失败"),
         ("rawOutput", JVal.jstr "not json")]) := by
  constructor
  · exact c10_reject_iff_start_failure.2.1 2 "x" "boom" (by decide)
  · exact c10_reject_iff_start_failure.2.2.1 "not json" "" (by rfl)

/-- C1 counterexample: on a non-zero exit code the object delivered to the
UI is `success:false` with a plain string `error` field and a `rawOutput`
field — neither a success envelope with a data payload nor a failure
envelope whose error carries a code/message/details triple. -/
theorem c1_counterexample :
    runDataAnalysisScript (ProcEnd.closed 1 "x" "boom") =
      Settled.resolved (JVal.jobj
        [("success", JVal.jbool false),
         ("error", JVal.jstr "boom"),
         ("rawOutput", JVal.jstr "x")]) ∧
    isSuccessDataEnvelope (JVal.jobj
        [("success", JVal.jbool false),
         ("error", JVal.jstr "boom"),
         ("rawOutput", JVal.jstr "x")]) = false ∧
    isFailureTripleEnvelope (JVal.jobj
        [("success", JVal.jbool false),
         ("error", JVal.jstr "boom"),
         ("rawOutput", JVal.jstr "x")]) = false :=
  ⟨rfl, rfl, rfl⟩

/-- C1 (amended): every object `runDataAnalysisScript` resolves with is
either the script's own parsed JSON output, passed through unchanged, or an
envelope fabricated by the extension with `success:false` and a plain
string `error` field. -/
theorem c1_envelope_dichotomy :
    ∀ (code : Int) (out err : String) (v : JVal),
      runDataAnalysisOnClose code out err = Settled.resolved v →
      jsonParse (strOrElse (jsTrim out) emptyStdoutFallback) = some v ∨
        isStringErrorEnvelope v = true := by
  intro code out err v h
  unfold runDataAnalysisOnClose at h
  by_cases hc : code = 0
  · rw [if_pos hc] at h
    cases hp : jsonParse (strOrElse (jsTrim out) emptyStdoutFallback) with
    | some w =>
      rw [hp] at h
      simp only [Settled.resolved.injEq] at h
      subst h
      exact Or.inl rfl
    | none =>
      rw [hp] at h
      simp only [Settled.resolved.injEq] at h
      subst h
      exact Or.inr rfl
  · rw [if_neg hc] at h
    simp only [Settled.resolved.injEq] at h
    subst h
    exact Or.inr rfl

/-- C1 witness: the dichotomy at a concrete failing invocation. -/
theorem c1_witness :
    jsonParse (strOrElse (jsTrim "x") emptyStdoutFallback) =
        some (JVal.jobj
          [("success", JVal.jbool false),
           ("error", JVal.jstr "boom"),
           ("rawOutput", JVal.jstr "x")]) ∨
      isStringErrorEnvelope (JVal.jobj
        [("success", JVal.jbool false),
         ("error", JVal.jstr "boom"),
         ("rawOutput", JVal.jstr "x")]) = true :=
  c1_envelope_dichotomy 1 "x" "boom" _ rfl

/-- C5 counterexample: the supplier webview's `add` action spawns two helper
processes — the add operation and the list refresh — not at most one. -/
theorem c5_counterexample :
    supplierHandleMessage "add" = ["add", "list"] ∧
    ¬((supplierHandleMessage "add").length ≤ 1) := by
  constructor
  · rfl
  · decide

/-- C5 (amended): each webview action spawns at most two helper processes: a
`list` query spawns exactly one, a mutation spawns the operation process and
one list-refresh process (the customer provider refreshes only after
success), and unknown commands spawn none. -/
theorem c5_at_most_two_processes :
    (∀ cmd, (supplierHandleMessage cmd).length ≤ 2) ∧
    supplierHandleMessage "list" = ["list"] ∧
    (∀ cmd, cmd ∈ supplierMutations →
      supplierHandleMessage cmd = [cmd, "list"]) ∧
    (∀ cmd, ¬(cmd = "list") → ¬(cmd ∈ supplierMutations) →
      supplierHandleMessage cmd = []) ∧
    (∀ b, (customerAddSpawns b).length ≤ 2) ∧
    customerAddSpawns false = ["add"] := by
  refine ⟨?_, rfl, ?_, ?_, ?_, rfl⟩
  · intro cmd
    unfold supplierHandleMessage
    by_cases h1 : cmd = "list"
    · simp [h1]
    · rw [if_neg h1]
      by_cases h2 : cmd ∈ supplierMutations
      · simp [h2]
      · simp [h2]
  · intro cmd h
    have hne : ¬(cmd = "list") := by
      simp only [supplierMutations, List.mem_cons, List.mem_singleton] at h
      rcases h with rfl | rfl | rfl | rfl | h
      · decide
      · decide
      · decide
      · decide
      · simp at h
    unfold supplierHandleMessage
    rw [if_neg hne, if_pos h]
  · intro cmd h1 h2
    unfold supplierHandleMessage
    rw [if_neg h1, if_neg h2]
  · intro b
    cases b <;> decide

/-- C5 witness: the amended bound at the concrete `update` action. -/
theorem c5_witness :
    supplierHandleMessage "update" = ["update", "list"] :=
  c5_at_most_two_processes.2.2.1 "update" (by decide)

/-- C6 counterexample: the `runDataAnalysisScript` call site passes no
timeout option, so not every process-launching call site has a finite
timeout bound. -/
theorem c6_counterexample :
    (spawnSites.filter (fun cs => cs.fn = "runDataAnalysisScript")).map
        SpawnSite.timeoutMs = [none] ∧
    (spawnSites.all fun cs => cs.timeoutMs.isSome) = false := by
  constructor
  · rfl
  · rfl

/-- C6 (amended): no process-launching call site retries or backs off, and a
wall-clock timeout (30 seconds) is set at exactly two call sites — the
material-management and dashboard webview providers; every other call site
sets no timeout. -/
theorem c6_timeout_table :
    ∀ cs ∈ spawnSites,
      cs.retries = 0 ∧
      (cs.timeoutMs = none ∨ cs.timeoutMs = some 30000) ∧
      (cs.timeoutMs = some 30000 ↔ cs.fn ∈ timedSites) := by
  decide

/-- C6 witness: the table facts at the `runDataAnalysisScript` call site. -/
theorem c6_witness :
    (SpawnSite.mk "runDataAnalysisScript" none 0).retries = 0 ∧
    ((SpawnSite.mk "runDataAnalysisScript" none 0).timeoutMs = none ∨
      (SpawnSite.mk "runDataAnalysisScript" none 0).timeoutMs = some 30000) ∧
    ((SpawnSite.mk "runDataAnalysisScript" none 0).timeoutMs = some 30000 ↔
      (SpawnSite.mk "runDataAnalysisScript" none 0).fn ∈ timedSites) :=
  c6_timeout_table (SpawnSite.mk "runDataAnalysisScript" none 0) (by decide)

/-- The failure paths of `checkConnection`: exec error or stderr output,
a JSON parse failure, or a backend-reported error. -/
def connectionFetchFailed (hasError : Bool) (stdout stderr : String) : Prop :=
  hasError = true ∨ ¬(stderr = "") ∨ jsonParse stdout = none ∨
    (∃ r, jsonParse stdout = some r ∧
      (lookupJ r "error").elim false jsTruthy = true)

lemma checkConnectionCb_isConnected (s : TreeState) (hasError : Bool)
    (stdout stderr : String) :
    (checkConnectionCb s hasError stdout stderr).isConnected = true := by
  unfold checkConnectionCb
  split
  · rfl
  · split
    · split
      · rfl
      · rfl
    · rfl

lemma checkConnectionCb_failure_collections (s : TreeState) (hasError : Bool)
    (stdout stderr : String)
    (h : connectionFetchFailed hasError stdout stderr) :
    (checkConnectionCb s hasError stdout stderr).collections =
      s.tableMapping.map Prod.fst := by
  unfold checkConnectionCb
  split
  · rfl
  · next h1 =>
    have he : hasError = false := by
      cases hasError
      · rfl
      · exact absurd (by simp) h1
    have hs : stderr = "" := by
      by_contra hne
      exact h1 (by simp [hne])
    split
    · next r hr =>
      split
      · rfl
      · next htr =>
        rcases h with h | h | h | h
        · rw [he] at h; exact absurd h (by simp)
        · exact absurd hs h
        · rw [hr] at h; exact absurd h (by simp)
        · obtain ⟨r2, hr2, htr2⟩ := h
          rw [hr] at hr2
          have : r2 = r := by
            injection hr2.symm
          rw [this] at htr2
          exact absurd htr2 htr
    · rfl

/-- C7 counterexample: when the connection-check exec fails, the tree
provider does not merely display the failure — it substitutes the default
collection list (the keys of `tableMapping`) for the missing result. -/
theorem c7_counterexample :
    (checkConnectionCb initialTreeState true "" "boom").collections =
      defaultTableMapping.map Prod.fst ∧
    ¬(defaultTableMapping.map Prod.fst = []) := by
  constructor
  · rfl
  · decide

/-- C7 (amended): a failed helper invocation is surfaced as a single
displayed error message with no retry and no substitute data — the business
view handler posts exactly one error and no data message, the dashboard
handler posts exactly one error message — except
`ImsTreeDataProvider.checkConnection`, which on every failure path loads the
default collection list (the keys of `tableMapping`) as substitute data. -/
theorem c7_failure_surfacing :
    (∀ (code : Int) (out err : String),
      (¬(code = 0) ∨ jsonParse (jsTrim out) = none) →
        ((loadBusinessViewOnClose code out err).filter isErrorMsg).length = 1 ∧
        ((loadBusinessViewOnClose code out err).filter isDataMsg).length = 0) ∧
    (∀ m, getDashboardDataMsgs (Except.error m) =
      [PostedMsg.errorMsg ("获取仪表板数据失败: " ++ m)]) ∧
    (∀ (s : TreeState) (hasError : Bool) (stdout stderr : String),
      connectionFetchFailed hasError stdout stderr →
        (checkConnectionCb s hasError stdout stderr).collections =
          s.tableMapping.map Prod.fst) := by
  refine ⟨?_, fun m => rfl, checkConnectionCb_failure_collections⟩
  intro code out err h
  unfold loadBusinessViewOnClose
  by_cases hc : code = 0
  · rcases h with h | h
    · exact absurd hc h
    · rw [if_pos hc, h]
      constructor <;> rfl
  · rw [if_neg hc]
    constructor <;> rfl

/-- C7 witness: the failure surfacing at a concrete non-zero exit. -/
theorem c7_witness :
    ((loadBusinessViewOnClose 1 "x" "boom").filter isErrorMsg).length = 1 ∧
    ((loadBusinessViewOnClose 1 "x" "boom").filter isDataMsg).length = 0 :=
  c7_failure_surfacing.1 1 "x" "boom" (Or.inl (by decide))

/-- C8: every completion path of `checkConnection` sets `isConnected` to
true, every failure path sets `collections` to the keys of `tableMapping`,
and after any completed check `getChildren` produces the three root nodes,
never the "database not connected" items. -/
theorem c8_connection_invariant :
    ∀ (s : TreeState) (hasError : Bool) (stdout stderr : String),
      (checkConnectionCb s hasError stdout stderr).isConnected = true ∧
      getChildrenRoot (checkConnectionCb s hasError stdout stderr) =
        ["数据库表", "业务视图", "管理视图"] ∧
      (connectionFetchFailed hasError stdout stderr →
        (checkConnectionCb s hasError stdout stderr).collections =
          s.tableMapping.map Prod.fst) := by
  intro s hasError stdout stderr
  refine ⟨checkConnectionCb_isConnected s hasError stdout stderr, ?_,
    checkConnectionCb_failure_collections s hasError stdout stderr⟩
  unfold getChildrenRoot
  rw [checkConnectionCb_isConnected s hasError stdout stderr]
  rfl

/-- C8 witness: the invariant after a concrete failed connection check. -/
theorem c8_witness :
    (checkConnectionCb initialTreeState true "" "").isConnected = true ∧
    getChildrenRoot (checkConnectionCb initialTreeState true "" "") =
      ["数据库表", "业务视图", "管理视图"] ∧
    (checkConnectionCb initialTreeState true "" "").collections =
      initialTreeState.tableMapping.map Prod.fst := by
  obtain ⟨h1, h2, h3⟩ := c8_connection_invariant initialTreeState true "" ""
  exact ⟨h1, h2, h3 (Or.inl rfl)⟩

/-- C9: `show()` is idempotent while a panel exists — with `_panel` defined
it only reveals and returns, creating no panel, setting no HTML and
registering no handlers, so two consecutive calls leave the state of one;
only after a dispose does `show()` create a panel again. -/
theorem c9_show_idempotent :
    ∀ s : WebviewState,
      showPanel (showPanel s) = showPanel s ∧
      (s.panel.isSome = true → showPanel s = s) ∧
      (showPanel (disposePanel s)).panel.isSome = true ∧
      (showPanel (disposePanel s)).panelsCreated =
        (disposePanel s).panelsCreated + 1 := by
  intro s
  refine ⟨?_, ?_, ?_, ?_⟩
  · cases hp : s.panel with
    | some n => simp [showPanel, hp]
    | none => simp [showPanel, hp]
  · intro hs
    cases hp : s.panel with
    | some n => simp [showPanel, hp]
    | none => rw [hp] at hs; simp at hs
  · simp [showPanel, disposePanel]
  · simp [showPanel, disposePanel]

/-- C9 witness: idempotence at a concrete state with a live panel. -/
theorem c9_witness :
    showPanel (WebviewState.mk (some 0) 1 1 1 1) =
      WebviewState.mk (some 0) 1 1 1 1 :=
  (c9_show_idempotent (WebviewState.mk (some 0) 1 1 1 1)).2.1 rfl

lemma parseIntStr_digits (ds : List Char) (hne : ds ≠ [])
    (hdig : ds.all Char.isDigit = true) :
    parseIntStr ⟨ds⟩ = some ((digitsToNat ds : Int)) := by
  have hnw : ∀ c ∈ ds, wsp c = false := by
    intro c hc
    exact wsp_of_isDigit c (by
      rw [List.all_eq_true] at hdig
      simpa using hdig c hc)
  have hdata : (jsTrim (⟨ds⟩ : String)).data = ds := by
    show trimChars ds = ds
    exact trimChars_eq_self ds hnw
  unfold parseIntStr
  rw [hdata]
  cases ds with
  | nil => exact absurd rfl hne
  | cons c cs =>
    have hcd : c.isDigit = true := by
      rw [List.all_eq_true] at hdig
      simpa using hdig c (List.mem_cons_self c cs)
    have hcne : ¬(c = '-') := by
      intro hceq
      rw [hceq] at hcd
      simp [Char.isDigit] at hcd
    show (if c = '-' then
        if (!(cs = []) && cs.all Char.isDigit) = true then
          some (-(digitsToNat cs : Int))
        else none
      else if (c :: cs).all Char.isDigit = true then
        some ((digitsToNat (c :: cs) : Int))
      else none) = some ((digitsToNat (c :: cs) : Int))
    rw [if_neg hcne, if_pos hdig]

/-- C2: every numeric parameter the validator produces lies within its fixed
bounds — page in `[1,10000]`, page_size in `[1,1000]`, limit in `[1,10000]`;
integers pass through coercion and digit strings are coerced to their
integer value; an in-range value is kept, an out-of-range value is adjusted
to the nearer boundary, and an uncoercible value is replaced by the defaults
`page = 1` and `page_size = 50`. -/
theorem c2_numeric_validation :
    (∀ v : RawValue,
      1 ≤ validatePage v ∧ validatePage v ≤ 10000 ∧
      1 ≤ validatePageSize v ∧ validatePageSize v ≤ 1000 ∧
      (∀ n, validateLimit v = some n → 1 ≤ n ∧ n ≤ 10000)) ∧
    (∀ n : Int, coerceInt (RawValue.vint n) = some n) ∧
    (∀ ds : List Char, ¬(ds = []) → ds.all Char.isDigit = true →
      coerceInt (RawValue.vstr ⟨ds⟩) = some ((digitsToNat ds : Int))) ∧
    (∀ n : Int, 1 ≤ n → n ≤ 10000 → validatePage (RawValue.vint n) = n) ∧
    (∀ n : Int, n < 1 →
      validatePage (RawValue.vint n) = 1 ∧
      validatePageSize (RawValue.vint n) = 1 ∧
      validateLimit (RawValue.vint n) = some 1) ∧
    (∀ n : Int, 10000 < n →
      validatePage (RawValue.vint n) = 10000 ∧
      validateLimit (RawValue.vint n) = some 10000) ∧
    (∀ n : Int, 1000 < n → validatePageSize (RawValue.vint n) = 1000) ∧
    (validatePage RawValue.vother = 1 ∧
      validatePageSize RawValue.vother = 50) := by
  refine ⟨?_, fun n => rfl, ?_, ?_, ?_, ?_, ?_, ⟨rfl, rfl⟩⟩
  · intro v
    refine ⟨?_, ?_, ?_, ?_, ?_⟩
    · cases h : coerceInt v <;> simp [validatePage, h, clampInt]
    · cases h : coerceInt v <;> simp [validatePage, h, clampInt]
    · cases h : coerceInt v <;> simp [validatePageSize, h, clampInt]
    · cases h : coerceInt v <;> simp [validatePageSize, h, clampInt]
    · intro n hn
      cases h : coerceInt v with
      | none => simp [validateLimit, h] at hn
      | some m =>
        simp only [validateLimit, h, Option.some.injEq] at hn
        subst hn
        simp only [clampInt]
        omega
  · intro ds hne hdig
    exact parseIntStr_digits ds hne hdig
  · intro n h1 h2
    show clampInt 1 10000 n = n
    simp only [clampInt]
    omega
  · intro n h
    refine ⟨?_, ?_, ?_⟩
    · show clampInt 1 10000 n = 1
      simp only [clampInt]
      omega
    · show clampInt 1 1000 n = 1
      simp only [clampInt]
      omega
    · show some (clampInt 1 10000 n) = some 1
      simp only [clampInt, Option.some.injEq]
      omega
  · intro n h
    constructor
    · show clampInt 1 10000 n = 10000
      simp only [clampInt]
      omega
    · show some (clampInt 1 10000 n) = some 10000
      simp only [clampInt, Option.some.injEq]
      omega
  · intro n h
    show clampInt 1 1000 n = 1000
    simp only [clampInt]
    omega

/-- C2 witness: the bounds and clamping at concrete inputs. -/
theorem c2_witness :
    coerceInt (RawValue.vstr ⟨['1', '2', '3']⟩) = some ((123 : Int)) ∧
    validatePage (RawValue.vint 20000) = 10000 := by
  constructor
  · have h := c2_numeric_validation.2.2.1 ['1', '2', '3'] (by decide) (by decide)
    simpa using h
  · exact (c2_numeric_validation.2.2.2.2.2.1 20000 (by decide)).1

lemma validateDateField_ok (s : Option String)
    (h : ∀ str, s = some str → (parseDateYMD (jsTrim str)).isSome = true) :
    ∃ r, validateDateField s = Except.ok r := by
  cases s with
  | none => exact ⟨none, rfl⟩
  | some str =>
    have hp := h str rfl
    refine ⟨some (jsTrim str), ?_⟩
    show (if (parseDateYMD (jsTrim str)).isSome = true then
        Except.ok (some (jsTrim str))
      else
        Except.error
          (⟨"INVALID_PARAMETERS", "日期格式无效", "日期格式应为 YYYY-MM-DD"⟩ : VError)) =
      Except.ok (some (jsTrim str))
    rw [if_pos hp]

lemma validateDateField_error (s : Option String) (e : VError)
    (h : validateDateField s = Except.error e) :
    e.code = "INVALID_PARAMETERS" ∧
      ∃ str, s = some str ∧ ¬((parseDateYMD (jsTrim str)).isSome = true) := by
  cases s with
  | none => simp [validateDateField] at h
  | some str =>
    have h2 : (if (parseDateYMD (jsTrim str)).isSome = true then
        Except.ok (some (jsTrim str))
      else
        Except.error
          (⟨"INVALID_PARAMETERS", "日期格式无效", "日期格式应为 YYYY-MM-DD"⟩ : VError)) =
        Except.error e := h
    by_cases hp : (parseDateYMD (jsTrim str)).isSome = true
    · rw [if_pos hp] at h2
      exact absurd h2 (by simp)
    · rw [if_neg hp] at h2
      injection h2 with h3
      subst h3
      exact ⟨rfl, str, rfl, hp⟩

/-- C3: the unified validation entry point applies defaults first and then
validates dates, numeric, string and array parameters against the fixed
per-field table; it rejects, with a structured `INVALID_PARAMETERS` error,
exactly when a date value cannot be coerced — a parameter object whose
values are all coercible is never rejected. -/
theorem c3_unified_validation :
    ∀ (method : String) (p : RawParams),
      (∀ e, validateAndCleanParams method p = Except.error e →
        e.code = "INVALID_PARAMETERS" ∧
          ¬ datesCoercible (applyDefaultValues method p)) ∧
      (datesCoercible (applyDefaultValues method p) →
        ∃ c, validateAndCleanParams method p = Except.ok c) := by
  intro method p
  constructor
  · intro e he
    unfold validateAndCleanParams validateStages at he
    split at he
    · rename_i e1 h1
      injection he with h2
      subst h2
      obtain ⟨hc, str, hs, hps⟩ := validateDateField_error _ e1 h1
      refine ⟨hc, fun hdc => hps (hdc.1 str hs)⟩
    · rename_i sd h1
      split at he
      · rename_i e2 h2
        injection he with h3
        subst h3
        obtain ⟨hc, str, hs, hps⟩ := validateDateField_error _ e2 h2
        refine ⟨hc, fun hdc => hps (hdc.2 str hs)⟩
      · exact absurd he (by simp)
  · intro hdc
    obtain ⟨r1, hr1⟩ := validateDateField_ok _ hdc.1
    obtain ⟨r2, hr2⟩ := validateDateField_ok _ hdc.2
    cases hres : validateAndCleanParams method p with
    | ok c => exact ⟨c, rfl⟩
    | error e =>
      unfold validateAndCleanParams validateStages at hres
      split at hres
      · rename_i e1 h1
        rw [hr1] at h1
        exact absurd h1 (by simp)
      · split at hres
        · rename_i e2 h2
          rw [hr2] at h2
          exact absurd h2 (by simp)
        · exact absurd hres (by simp)

/-- C3 witness: a coercible parameter object at a concrete method is
accepted. -/
theorem c3_witness :
    ∃ c, validateAndCleanParams "get_dashboard_summary"
        (RawParams.mk (some "2025-01-01") none none none none none none none
          none none) = Except.ok c := by
  refine (c3_unified_validation "get_dashboard_summary" _).2 ⟨?_, ?_⟩
  · intro str h
    injection h with h2
    subst h2
    decide
  · intro str h
    exact Option.noConfusion h

lemma validateEnumField_mem (allowed : List String) (dflt : String)
    (hd : dflt ∈ allowed) (s : String) :
    ∀ d, validateEnumField allowed dflt (some s) = some d → d ∈ allowed := by
  intro d h
  have h2 : (if cleanStringInput s ∈ allowed then some (cleanStringInput s)
      else some dflt) = some d := h
  by_cases hc : cleanStringInput s ∈ allowed
  · rw [if_pos hc] at h2
    injection h2 with h3
    subst h3
    exact hc
  · rw [if_neg hc] at h2
    injection h2 with h3
    subst h3
    exact hd

/-- C4: every cleaned string parameter contains none of the dangerous
characters, is at most 100 characters long and carries no surrounding
whitespace (quotes are removed with the dangerous characters); the
enumerated parameters dimension, analysis_type and format only ever take
values from their allowed lists. -/
theorem c4_string_cleaning :
    ∀ s : String,
      (∀ c ∈ (cleanStringInput s).data, ¬(c ∈ dangerousChars)) ∧
      (cleanStringInput s).data.length ≤ 100 ∧
      (∀ c, (cleanStringInput s).data.head? = some c → wsp c = false) ∧
      (∀ c, (cleanStringInput s).data.getLast? = some c → wsp c = false) ∧
      (∀ d, validateEnumField allowedDimensions "month" (some s) = some d →
        d ∈ allowedDimensions) ∧
      (∀ d, validateEnumField allowedAnalysisTypes "rfm" (some s) = some d →
        d ∈ allowedAnalysisTypes) ∧
      (∀ d, validateEnumField allowedFormats "json" (some s) = some d →
        d ∈ allowedFormats) := by
  intro s
  refine ⟨?_, ?_, ?_, ?_,
    validateEnumField_mem _ _ (by decide) s,
    validateEnumField_mem _ _ (by decide) s,
    validateEnumField_mem _ _ (by decide) s⟩
  · intro c hc hdc
    have hmem := mem_trimChars _ c hc
    have hmem2 : c ∈ s.data.filter (fun c => !(decide (c ∈ dangerousChars))) :=
      List.take_subset _ _ hmem
    rw [List.mem_filter] at hmem2
    have := hmem2.2
    simp only [Bool.not_eq_true', decide_eq_false_iff_not] at this
    exact this hdc
  · calc (cleanStringInput s).data.length
        ≤ ((s.data.filter (fun c => !(decide (c ∈ dangerousChars)))).take
            100).length := trimChars_length_le _
      _ ≤ 100 := List.length_take_le _ _
  · intro c h
    exact trimChars_head _ c h
  · intro c h
    exact trimChars_getLast _ c h

/-- C4 witness: the cleaning facts at a concrete enumerated input. -/
theorem c4_witness :
    validateEnumField allowedDimensions "month" (some " month ") =
      some "month" ∧ "month" ∈ allowedDimensions := by
  constructor
  · decide
  · exact (c4_string_cleaning " month ").2.2.2.2.1 "month" (by decide)
